import Mathlib

/-!
Shallow embedding of the AxiomHive trading engine (Rust sources) in Lean 4.

Modelling conventions:
* `rust_decimal::Decimal` (fixed-point decimal) is modelled as `ℚ`.  All
  constants and inputs appearing in the claims are exact decimals, and the
  divisions exercised by the theorems below are exact, so the rational
  semantics agrees with the decimal semantics on them.  Division by zero
  panics in `rust_decimal`; wherever a claim depends on that (the risk-budget
  check) the embedding makes the panic explicit instead of using the
  rational convention `x / 0 = 0`.
* `chrono::DateTime<Utc>` carries sub-second precision; it is modelled as an
  integer count of epoch milliseconds.  `DateTime::timestamp()` returns whole
  epoch seconds (floor), modelled with `Int.fdiv _ 1000`.
* `HashMap<Symbol, Position>` is modelled as an association list
  `List (String × Position)`; every quantity derived from it below (sums,
  filters, membership) is independent of iteration order.
* Struct fields that no embedded operation reads (venues on signals,
  order types, stop prices, the z3 model map, the correlation matrix) are
  omitted; a comment at each structure lists the omissions.
-/

namespace AxiomHive

/-- Side of a trade (axiom-core types, re-exported by every crate). -/
inductive Side
  | Buy
  | Sell
deriving DecidableEq, Repr

/-- Circuit breaker state (axiom-core types). -/
inductive CircuitBreakerState
  | Normal
  | Warning
  | Tripped
deriving DecidableEq, Repr

/-- One price level of an order book (`BookLevel { price, quantity }`). -/
structure BookLevel where
  price : ℚ
  quantity : ℚ
deriving DecidableEq, Repr

/-- Order book as consumed by the feature calculator and proposer.
Omitted fields (unused by the embedded functions): symbol, venue,
timestamp, sequence. -/
structure OrderBook where
  bids : List BookLevel
  asks : List BookLevel
deriving DecidableEq, Repr

/-- Trade signal (axiom-core types, fields as constructed in
`proposer.rs` and consumed in `invariants.rs` / `safety.rs`).
Omitted fields unused by the embedded checks: venue, order_type,
stop_price. `timestamp` is epoch milliseconds. -/
structure TradeSignal where
  symbol : String
  side : Side
  quantity : ℚ
  limit_price : Option ℚ
  timestamp : Int
  contradiction_score : ℚ
  entropy_count : ℚ
deriving DecidableEq, Repr

/-- Open position (axiom-core types, fields as used in `portfolio.rs`). -/
structure Position where
  symbol : String
  venue : String
  side : Side
  quantity : ℚ
  entry_price : ℚ
  current_price : ℚ
  unrealized_pnl : ℚ
  realized_pnl : ℚ
deriving DecidableEq, Repr

/-- Portfolio (axiom-core types, fields as used in `portfolio.rs`,
`invariants.rs`, `hamiltonian.rs`, `circuit_breaker.rs`).  The
`correlation_matrix` field is omitted: no embedded operation reads it. -/
structure Portfolio where
  equity : ℚ
  positions : List Position
  total_exposure : ℚ
  net_exposure : ℚ
  leverage : ℚ
  energy : ℚ
deriving DecidableEq, Repr

/-! Constants from `axiom-core/src/constants.rs`. -/

def MAX_POSITION_SIZE_BTC : ℚ := 10
def MAX_POSITION_SIZE_ETH : ℚ := 100
def MAX_POSITION_SIZE_SOL : ℚ := 1000
def MAX_ORDER_SIZE_BTC : ℚ := 1
def MAX_ORDER_SIZE_ETH : ℚ := 10
def MAX_ORDER_SIZE_SOL : ℚ := 100
def MAX_LEVERAGE : ℚ := 3
def MIN_RISK_BUDGET : ℚ := 1/400
def MAX_RISK_BUDGET : ℚ := 1/100
def MAX_DAILY_DRAWDOWN : ℚ := 3/100
def DELTA_U_MAX_SQ : ℚ := 1/1000000000000

/-- Typed violations of the L0 invariant contract
(`axiom-core/src/invariants.rs`, enum `InvariantViolation`). -/
inductive InvariantViolation
  | NegativeContradiction
  | PositionSizeExceeded (quantity max : ℚ)
  | LeverageExceeded (current max : ℚ)
  | RiskBudgetExceeded (fraction max : ℚ)
  | RiskBudgetTooSmall (fraction min : ℚ)
  | ExcessiveEntropy
  | InvalidPrice
  | UnsupportedSymbol
  | EnergyDivergence (energy threshold : ℚ)
deriving DecidableEq, Repr

/-- Outcome of a Rust function returning `Result<(), InvariantViolation>`,
with an explicit `panic` constructor for the division-by-zero abort that
`rust_decimal`'s `/` performs (it returns no value in that case). -/
inductive L0Outcome
  | ok
  | err (v : InvariantViolation)
  | panic
deriving DecidableEq, Repr

namespace L0InvariantContract

/-- Symbol lookup of `check_position_size` (invariants.rs lines 55-60):
the `match` on the symbol string, whose catch-all arm early-returns
`UnsupportedSymbol` (modelled as `none` here, surfaced by the caller). -/
def max_position_size (symbol : String) : Option ℚ :=
  if symbol = "BTC/USD" then some MAX_POSITION_SIZE_BTC
  else if symbol = "ETH/USD" then some MAX_POSITION_SIZE_ETH
  else if symbol = "SOL/USD" then some MAX_POSITION_SIZE_SOL
  else none

/-- Embedding of `L0InvariantContract::check_position_size`
(invariants.rs lines 54-70).  `none` is `Ok(())`. -/
def check_position_size (symbol : String) (quantity : ℚ) :
    Option InvariantViolation :=
  match max_position_size symbol with
  | none => some .UnsupportedSymbol
  | some m =>
    if quantity > m then some (.PositionSizeExceeded quantity m) else none

/-- Embedding of `L0InvariantContract::check_leverage`
(invariants.rs lines 73-82). -/
def check_leverage (portfolio : Portfolio) : Option InvariantViolation :=
  if portfolio.leverage > MAX_LEVERAGE then
    some (.LeverageExceeded portfolio.leverage MAX_LEVERAGE)
  else none

/-- Embedding of `L0InvariantContract::check_risk_budget`
(invariants.rs lines 85-108).  The source computes
`position_value / portfolio.equity` with no zero guard; `rust_decimal`
division panics when the divisor is zero, modelled by `L0Outcome.panic`. -/
def check_risk_budget (signal : TradeSignal) (portfolio : Portfolio) :
    L0Outcome :=
  let position_value := signal.quantity * signal.limit_price.getD 0
  if portfolio.equity = 0 then .panic
  else
    let risk_fraction := position_value / portfolio.equity
    if risk_fraction < MIN_RISK_BUDGET then
      .err (.RiskBudgetTooSmall risk_fraction MIN_RISK_BUDGET)
    else if risk_fraction > MAX_RISK_BUDGET then
      .err (.RiskBudgetExceeded risk_fraction MAX_RISK_BUDGET)
    else .ok

/-- Embedding of `L0InvariantContract::verify_signal`
(invariants.rs lines 21-51), preserving the source's check order. -/
def verify_signal (signal : TradeSignal) (portfolio : Portfolio) : L0Outcome :=
  if signal.contradiction_score < 0 then .err .NegativeContradiction
  else
    match check_position_size signal.symbol signal.quantity with
    | some v => .err v
    | none =>
      match check_leverage portfolio with
      | some v => .err v
      | none =>
        match check_risk_budget signal portfolio with
        | .panic => .panic
        | .err v => .err v
        | .ok =>
          if signal.entropy_count > DELTA_U_MAX_SQ then .err .ExcessiveEntropy
          else
            match signal.limit_price with
            | some lp => if lp ≤ 0 then .err .InvalidPrice else .ok
            | none => .ok

/-- Embedding of `L0InvariantContract::verify_hamiltonian_energy`
(invariants.rs lines 111-120).  `none` is `Ok(())`. -/
def verify_hamiltonian_energy (portfolio : Portfolio) :
    Option InvariantViolation :=
  if portfolio.energy > DELTA_U_MAX_SQ then
    some (.EnergyDivergence portfolio.energy DELTA_U_MAX_SQ)
  else none

end L0InvariantContract

/-! Hamiltonian monitor, `axiom-risk/src/hamiltonian.rs`. -/

/-- Embedding of `calculate_correlation_penalty` (hamiltonian.rs
lines 23-39). -/
def calculate_correlation_penalty (portfolio : Portfolio) : ℚ :=
  if portfolio.positions.isEmpty then 0
  else
    let long_count := (portfolio.positions.filter (fun p => p.side = Side.Buy)).length
    let short_count := (portfolio.positions.filter (fun p => p.side = Side.Sell)).length
    ((Nat.max long_count short_count : ℕ) : ℚ) * (1/10)

/-- Embedding of `calculate_hamiltonian_energy` (hamiltonian.rs
lines 10-18): `(leverage² + correlation_penalty) / 2`. -/
def calculate_hamiltonian_energy (portfolio : Portfolio) : ℚ :=
  (portfolio.leverage * portfolio.leverage
    + calculate_correlation_penalty portfolio) / 2

/-! Circuit breaker, `axiom-risk/src/circuit_breaker.rs`. -/

/-- Circuit breaker state (circuit_breaker.rs lines 12-17).  History
entries are `(timestamp in epoch ms, equity)` pairs appended by
`record_snapshot`, front = oldest.  The `last_reset` field is omitted:
nothing reads it. -/
structure CircuitBreaker where
  state : CircuitBreakerState
  daily_pnl_history : List (Int × ℚ)
  max_daily_drawdown : ℚ
deriving DecidableEq, Repr

namespace CircuitBreaker

/-- Embedding of `CircuitBreaker::new`. -/
def new (max_daily_drawdown : ℚ) : CircuitBreaker :=
  { state := .Normal, daily_pnl_history := [], max_daily_drawdown }

/-- Embedding of `CircuitBreaker::calculate_daily_drawdown`
(circuit_breaker.rs lines 62-74).  A zero starting equity would panic in
the source; none of the theorems below exercise that case. -/
def calculate_daily_drawdown (b : CircuitBreaker) (portfolio : Portfolio) : ℚ :=
  match b.daily_pnl_history.head? with
  | none => 0
  | some se => (portfolio.equity - se.2) / se.2

/-- Embedding of `CircuitBreaker::check` (circuit_breaker.rs lines 30-59).
Returns the returned state together with the mutated breaker; note the
final branch overwrites `state` with `Warning`/`Normal` unconditionally. -/
def check (b : CircuitBreaker) (portfolio : Portfolio) :
    CircuitBreakerState × CircuitBreaker :=
  let daily_drawdown := calculate_daily_drawdown b portfolio
  if |daily_drawdown| > b.max_daily_drawdown then
    (.Tripped, { b with state := .Tripped })
  else if portfolio.leverage > MAX_LEVERAGE then
    (.Tripped, { b with state := .Tripped })
  else
    let energy := calculate_hamiltonian_energy portfolio
    if energy > DELTA_U_MAX_SQ then (.Warning, { b with state := .Warning })
    else (.Normal, { b with state := .Normal })

/-- Embedding of `CircuitBreaker::record_snapshot` (circuit_breaker.rs
lines 77-89): append `(now, equity)`, then purge entries older than 24 h. -/
def record_snapshot (b : CircuitBreaker) (portfolio : Portfolio)
    (now_ms : Int) : CircuitBreaker :=
  let hist := b.daily_pnl_history ++ [(now_ms, portfolio.equity)]
  { b with daily_pnl_history := hist.dropWhile (fun e => e.1 < now_ms - 86400000) }

/-- Embedding of `CircuitBreaker::reset` (circuit_breaker.rs lines 92-96). -/
def reset (b : CircuitBreaker) : CircuitBreaker :=
  { b with state := .Normal, daily_pnl_history := [] }

end CircuitBreaker

/-! Portfolio manager, `axiom-risk/src/portfolio.rs`. -/

/-- Portfolio manager state (portfolio.rs lines 12-15): the authoritative
portfolio plus the symbol-indexed position map. -/
structure PortfolioManager where
  portfolio : Portfolio
  position_map : List (String × Position)
deriving DecidableEq, Repr

namespace PortfolioManager

/-- Embedding of `PortfolioManager::new` (portfolio.rs lines 18-31). -/
def new (initial_equity : ℚ) : PortfolioManager :=
  { portfolio :=
      { equity := initial_equity, positions := [], total_exposure := 0,
        net_exposure := 0, leverage := 0, energy := 0 },
    position_map := [] }

/-- Body of the `and_modify` closure in `update_position`
(portfolio.rs lines 45-65): same-side fills VWAP in, opposite-side fills
reduce (to zero when `quantity >= p.quantity`); `current_price` is set
to the fill price in either case. -/
def applyFill (p : Position) (side : Side) (quantity price : ℚ) : Position :=
  let p1 :=
    if p.side = side then
      let total_value := p.quantity * p.entry_price + quantity * price
      let total_quantity := p.quantity + quantity
      { p with entry_price := total_value / total_quantity,
               quantity := total_quantity }
    else
      if quantity ≥ p.quantity then { p with quantity := 0 }
      else { p with quantity := p.quantity - quantity }
  { p1 with current_price := price }

/-- Body of the `or_insert_with` closure in `update_position`
(portfolio.rs lines 66-75). -/
def newPosition (symbol : String) (side : Side) (quantity price : ℚ) :
    Position :=
  { symbol, venue := "unknown", side, quantity, entry_price := price,
    current_price := price, unrealized_pnl := 0, realized_pnl := 0 }

/-- HashMap `entry(..).and_modify(..).or_insert_with(..)` on the
association-list model: modify the entry if present, insert otherwise. -/
def upsert (m : List (String × Position)) (symbol : String) (side : Side)
    (quantity price : ℚ) : List (String × Position) :=
  match m with
  | [] => [(symbol, newPosition symbol side quantity price)]
  | e :: rest =>
    if e.1 = symbol then (e.1, applyFill e.2 side quantity price) :: rest
    else e :: upsert rest symbol side quantity price

/-- Embedding of `PortfolioManager::recalculate_metrics`
(portfolio.rs lines 97-135).  Note: the stored `energy` field is not
among the fields this function writes, and the final step adds the whole
current unrealized PnL to equity. -/
def recalculate_metrics (m : PortfolioManager) : PortfolioManager :=
  let positions := (m.position_map.map Prod.snd).filter (fun p => p.quantity > 0)
  let total_exposure := (positions.map (fun p => p.quantity * p.current_price)).sum
  let long_exposure := ((positions.filter (fun p => p.side = Side.Buy)).map
    (fun p => p.quantity * p.current_price)).sum
  let short_exposure := ((positions.filter (fun p => p.side = Side.Sell)).map
    (fun p => p.quantity * p.current_price)).sum
  let leverage :=
    if m.portfolio.equity > 0 then total_exposure / m.portfolio.equity else 0
  let total_unrealized := (positions.map (fun p => p.unrealized_pnl)).sum
  { m with portfolio :=
      { m.portfolio with
          positions := positions,
          total_exposure := total_exposure,
          net_exposure := long_exposure - short_exposure,
          leverage := leverage,
          equity := m.portfolio.equity + total_unrealized } }

/-- Embedding of `PortfolioManager::update_position`
(portfolio.rs lines 34-79). -/
def update_position (m : PortfolioManager) (symbol : String) (side : Side)
    (quantity price : ℚ) : PortfolioManager :=
  recalculate_metrics
    { m with position_map := upsert m.position_map symbol side quantity price }

/-- Mark-to-market of one position (body of the loop in `update_prices`,
portfolio.rs lines 84-90). -/
def markPosition (p : Position) (price : ℚ) : Position :=
  { p with current_price := price,
           unrealized_pnl :=
             match p.side with
             | .Buy => (price - p.entry_price) * p.quantity
             | .Sell => (p.entry_price - price) * p.quantity }

/-- Loop of `update_prices` over the price map (portfolio.rs lines 83-91):
each `(symbol, price)` pair marks the matching position, if any. -/
def applyPrices (m : List (String × Position)) (prices : List (String × ℚ)) :
    List (String × Position) :=
  prices.foldl
    (fun acc sp =>
      acc.map (fun e => if e.1 = sp.1 then (e.1, markPosition e.2 sp.2) else e))
    m

/-- Embedding of `PortfolioManager::update_prices`
(portfolio.rs lines 82-94). -/
def update_prices (m : PortfolioManager) (prices : List (String × ℚ)) :
    PortfolioManager :=
  recalculate_metrics { m with position_map := applyPrices m.position_map prices }

/-- Embedding of `PortfolioManager::get_position`
(portfolio.rs lines 143-145): lookup in the position map. -/
def get_position (m : PortfolioManager) (symbol : String) : Option Position :=
  (m.position_map.find? (fun e => e.1 = symbol)).map Prod.snd

end PortfolioManager

/-! Attestation, `axiom-core/src/signature.rs`. -/

/-- Proof object emitted by the verifier (axiom-core types, fields as
constructed in verifier.rs lines 103-112).  The z3 model map is omitted:
in the source it is always empty (no named constants are declared), so
`proof.model.get("hash")` is `None` and every `proof_signature` is the
constant string "C=0:". -/
structure Proof where
  satisfiable : Bool
  axioms_satisfied : List String
deriving DecidableEq, Repr

/-- Verified order (axiom-core types, fields as constructed in
verifier.rs lines 53-58).  `verified_at` is epoch milliseconds. -/
structure VerifiedOrder where
  signal : TradeSignal
  proof_signature : String
  proof : Proof
  verified_at : Int
deriving DecidableEq, Repr

/-- Seconds part of an epoch-millisecond timestamp, as returned by
`chrono::DateTime::timestamp()` (floor of seconds since the epoch). -/
def tsSeconds (ms : Int) : Int := ms.fdiv 1000

/-- Modelled from the spec: SHA3-256 over the order's canonical (JSON)
serialization.  The hash implementation lives in the external `sha3`
crate; it is modelled as an ideal collision-free hash, i.e. injectively,
by the hashed order itself. -/
def orderHash (order : VerifiedOrder) : VerifiedOrder := order

/-- Message signed and verified by `CZeroSignature`
(signature.rs lines 34-38 and 54-58):
`order_hash ++ ":" ++ proof_signature ++ ":" ++ verified_at.timestamp()`.
The three components are kept as a structure; the string concatenation
with ":" separators is injective on them. -/
structure SigMessage where
  order_hash : VerifiedOrder
  proof_signature : String
  ts_seconds : Int
deriving DecidableEq, Repr

/-- Modelled from the spec: an Ed25519 signature, produced by the
external `ed25519_dalek` crate.  Modelled as an ideal signature scheme:
a signature records the signing key and message, keys are natural
numbers, and the verifying key of a signing key is the key itself. -/
structure Ed25519Sig where
  key : Nat
  msg : SigMessage
deriving DecidableEq, Repr

/-- Modelled from the spec: ideal Ed25519 verification succeeds exactly
on the signer's key and the signed message (no forgery, no malleability). -/
def ed25519_verify (verifying_key : Nat) (msg : SigMessage)
    (sig : Ed25519Sig) : Bool :=
  sig.key = verifying_key ∧ sig.msg = msg

/-- Attestation token (signature.rs lines 14-23).  The `timestamp`
field (`Utc::now()` at signing time) is omitted: `verify` never reads it. -/
structure CZeroSignature where
  signature : Ed25519Sig
  verifying_key : Nat
  order_hash : VerifiedOrder
deriving DecidableEq, Repr

namespace CZeroSignature

/-- Embedding of `CZeroSignature::sign` (signature.rs lines 27-49). -/
def sign (order : VerifiedOrder) (signing_key : Nat) : CZeroSignature :=
  let h := orderHash order
  let message : SigMessage :=
    { order_hash := h, proof_signature := order.proof_signature,
      ts_seconds := tsSeconds order.verified_at }
  { signature := { key := signing_key, msg := message },
    verifying_key := signing_key, order_hash := h }

/-- Embedding of `CZeroSignature::verify` (signature.rs lines 52-77).
Returns `true` for `Ok(())` and `false` for `Err(VerificationFailed)`.
Note the reconstructed message uses the **stored** `self.order_hash`,
not a fresh hash of `order`; only `order.proof_signature` and
`order.verified_at.timestamp()` are taken from the order under
verification. -/
def verify (self : CZeroSignature) (order : VerifiedOrder) : Bool :=
  let message : SigMessage :=
    { order_hash := self.order_hash,
      proof_signature := order.proof_signature,
      ts_seconds := tsSeconds order.verified_at }
  ed25519_verify self.verifying_key message self.signature

end CZeroSignature

/-! Safety gate, `axiom-execution/src/safety.rs`. -/

/-- Safety gate errors (safety.rs lines 62-75). -/
inductive SafetyError
  | OrderSizeExceeded (size max : ℚ)
  | InvalidQuantity
  | InvalidPrice
  | UnsupportedSymbol
deriving DecidableEq, Repr

namespace SafetyChecker

/-- Symbol lookup of `check_order_size` (safety.rs lines 29-34): the
`match` on the symbol string, whose catch-all arm early-returns
`UnsupportedSymbol` (modelled as `none` here, surfaced by the caller). -/
def max_order_size (symbol : String) : Option ℚ :=
  if symbol = "BTC/USD" then some MAX_ORDER_SIZE_BTC
  else if symbol = "ETH/USD" then some MAX_ORDER_SIZE_ETH
  else if symbol = "SOL/USD" then some MAX_ORDER_SIZE_SOL
  else none

/-- Embedding of `SafetyChecker::check_order_size`
(safety.rs lines 28-49).  `none` is `Ok(())`. -/
def check_order_size (signal : TradeSignal) : Option SafetyError :=
  match max_order_size signal.symbol with
  | none => some .UnsupportedSymbol
  | some m =>
    if signal.quantity > m then some (.OrderSizeExceeded signal.quantity m)
    else if signal.quantity ≤ 0 then some .InvalidQuantity
    else none

/-- Embedding of `SafetyChecker::check_price` (safety.rs lines 51-59). -/
def check_price (signal : TradeSignal) : Option SafetyError :=
  match signal.limit_price with
  | some p => if p ≤ 0 then some .InvalidPrice else none
  | none => none

/-- Embedding of `SafetyChecker::check_order` (safety.rs lines 14-26).
The function takes only the order: it has no circuit-breaker input, and
its "Check 1" (signature verification) is an empty comment block in the
source.  `none` is `Ok(())`. -/
def check_order (order : VerifiedOrder) : Option SafetyError :=
  match check_order_size order.signal with
  | some e => some e
  | none => check_price order.signal

end SafetyChecker

/-! Verifier (SMT gate), `axiom-engine/src/verifier.rs`. -/

/-- Scaling used to lift a decimal into the SMT integer domain
(verifier.rs lines 75-82): `(x * 1_000_000).to_i64()`, i.e. truncation
toward zero of `x · 10⁶`. -/
def truncScale (x : ℚ) : Int := ((x * 1000000).num).tdiv ((x * 1000000).den)

/-- Modelled from the spec: the z3 solver (external crate) decides the
two ground integer constraints asserted by `generate_proof`
(verifier.rs lines 84-92); on ground linear integer arithmetic it
answers Sat/Unsat exactly and never Unknown.  Note the source compares
every signal's scaled quantity against `MAX_POSITION_SIZE_BTC`
regardless of symbol. -/
def smtSat (signal : TradeSignal) (portfolio : Portfolio) : Bool :=
  truncScale signal.quantity ≤ truncScale MAX_POSITION_SIZE_BTC ∧
    truncScale portfolio.leverage ≤ truncScale MAX_LEVERAGE

/-- Result of `Verifier::verify_signal`, with an explicit panic
constructor inherited from the L0 risk-budget division. -/
inductive VerifyResult
  | ok (order : VerifiedOrder)
  | err (v : InvariantViolation)
  | panic
deriving DecidableEq, Repr

namespace Verifier

/-- Embedding of `Verifier::generate_proof` (verifier.rs lines 67-126):
Sat yields a `Proof` with the fixed satisfied-axiom list; Unsat yields
`LeverageExceeded { current: portfolio.leverage, max: MAX_LEVERAGE }`
unconditionally. -/
def generate_proof (signal : TradeSignal) (portfolio : Portfolio) :
    Except InvariantViolation Proof :=
  if smtSat signal portfolio then
    .ok { satisfiable := true,
          axioms_satisfied :=
            ["PositionSizeLimit", "LeverageLimit", "RiskBudget",
             "EnergyConstraint"] }
  else
    .error (.LeverageExceeded portfolio.leverage MAX_LEVERAGE)

/-- Steps 1-3 of `Verifier::verify_signal` (verifier.rs lines 38-47):
the L0 contract, the stored-energy check, and the repeated entropy
check, before any SMT work. -/
def preSMT (signal : TradeSignal) (portfolio : Portfolio) : L0Outcome :=
  match L0InvariantContract.verify_signal signal portfolio with
  | .panic => .panic
  | .err v => .err v
  | .ok =>
    match L0InvariantContract.verify_hamiltonian_energy portfolio with
    | some v => .err v
    | none =>
      if signal.entropy_count > DELTA_U_MAX_SQ then .err .ExcessiveEntropy
      else .ok

/-- Embedding of `Verifier::verify_signal` (verifier.rs lines 33-64).
`now_ms` stands for the `Utc::now()` read on line 57.  As observed on
line 55, `proof.model.get("hash")` is always absent, so the
`proof_signature` is the constant "C=0:". -/
def verify_signal (signal : TradeSignal) (portfolio : Portfolio)
    (now_ms : Int) : VerifyResult :=
  match preSMT signal portfolio with
  | .panic => .panic
  | .err v => .err v
  | .ok =>
    match generate_proof signal portfolio with
    | .error v => .err v
    | .ok proof =>
      .ok { signal := signal, proof_signature := "C=0:", proof := proof,
            verified_at := now_ms }

end Verifier

/-! Feature calculations, `axiom-data/src/normalization.rs` and
`axiom-engine/src/features.rs`. -/

/-- Embedding of `calculate_depth_imbalance` (normalization.rs
lines 66-80). -/
def calculate_depth_imbalance (book : OrderBook) : ℚ :=
  let bid_volume := (book.bids.map (fun l => l.quantity)).sum
  let ask_volume := (book.asks.map (fun l => l.quantity)).sum
  if bid_volume + ask_volume = 0 then 0
  else (bid_volume - ask_volume) / (bid_volume + ask_volume)

/-- Embedding of `calculate_mid_price` (normalization.rs lines 83-88). -/
def calculate_mid_price (book : OrderBook) : Option ℚ := do
  let best_bid ← book.bids.head?
  let best_ask ← book.asks.head?
  pure ((best_bid.price + best_ask.price) / 2)

/-- Embedding of `calculate_spread` (normalization.rs lines 91-96). -/
def calculate_spread (book : OrderBook) : Option ℚ := do
  let best_bid ← book.bids.head?
  let best_ask ← book.asks.head?
  pure (best_ask.price - best_bid.price)

/-- Embedding of `calculate_spread_pct` (normalization.rs lines 99-108). -/
def calculate_spread_pct (book : OrderBook) : Option ℚ := do
  let spread ← calculate_spread book
  let mid ← calculate_mid_price book
  if mid = 0 then none else pure ((spread / mid) * 100)

/-- Embedding of `FeatureCalculator::calculate_cex_liquidity`
(features.rs lines 56-68): mean of price·qty sums over the top-10 bids
and asks. -/
def calculate_cex_liquidity (book : OrderBook) : ℚ :=
  let bid_volume := ((book.bids.take 10).map (fun l => l.price * l.quantity)).sum
  let ask_volume := ((book.asks.take 10).map (fun l => l.price * l.quantity)).sum
  (bid_volume + ask_volume) / 2

/-- Embedding of `FeatureCalculator::calculate_contradiction_score`
(features.rs lines 28-42). -/
def calculate_contradiction_score (book : OrderBook)
    (onchain_liquidity : ℚ) : ℚ :=
  let cex_liquidity := calculate_cex_liquidity book
  if cex_liquidity = 0 then 0
  else |onchain_liquidity - cex_liquidity| / cex_liquidity

/-- Embedding of `FeatureCalculator::calculate_entropy`
(features.rs lines 45-53). -/
def calculate_entropy (book : OrderBook) : ℚ :=
  ((calculate_spread_pct book).getD 0) * (1 + |calculate_depth_imbalance book|)

/-! Proposer, `axiom-engine/src/proposer.rs`. -/

/-- Embedding of `Proposer::propose_trade` (proposer.rs lines 32-86) as a
function of its inputs.  The proposal-counter increment does not affect
the returned signal and is dropped; the features used read no mutable
state.  `now_ms` stands for the `Utc::now()` read on line 76. -/
def propose_trade (symbol : String) (book : OrderBook) (now_ms : Int) :
    Option TradeSignal := do
  let contradiction_score := calculate_contradiction_score book 0
  let entropy := calculate_entropy book
  let mid_price ← calculate_mid_price book
  let _spread ← calculate_spread book
  let spread_pct ← calculate_spread_pct book
  if contradiction_score > 1/20 ∧ spread_pct > 1/1000 then
    let imbalance := calculate_depth_imbalance book
    let side := if imbalance > 0 then Side.Buy else Side.Sell
    pure { symbol := symbol, side := side, quantity := 1/10,
           limit_price := some mid_price, timestamp := now_ms,
           contradiction_score := contradiction_score,
           entropy_count := entropy }
  else none

/-! Specification-side definitions: these follow the words of the spec
(claim C5), for comparison against the embedded code. -/

/-- Tail of the spec ordering from axiom A3 onwards (claim C5).  Risk
fractions use exact rational division, as the spec's comparisons are
exact; the spec leaves A4 meaningless at zero equity (claim C10 covers
that case). -/
def specFromA3 (signal : TradeSignal) (portfolio : Portfolio) :
    Option InvariantViolation :=
  let position_value := signal.quantity * signal.limit_price.getD 0
  let risk := position_value / portfolio.equity
  if portfolio.leverage > MAX_LEVERAGE then
    some (.LeverageExceeded portfolio.leverage MAX_LEVERAGE)
  else if risk < MIN_RISK_BUDGET then
    some (.RiskBudgetTooSmall risk MIN_RISK_BUDGET)
  else if risk > MAX_RISK_BUDGET then
    some (.RiskBudgetExceeded risk MAX_RISK_BUDGET)
  else if signal.entropy_count > DELTA_U_MAX_SQ then some .ExcessiveEntropy
  else if signal.limit_price.any (fun lp => lp ≤ 0) then some .InvalidPrice
  else if portfolio.energy > DELTA_U_MAX_SQ then
    some (.EnergyDivergence portfolio.energy DELTA_U_MAX_SQ)
  else if L0InvariantContract.max_position_size signal.symbol = none then some .UnsupportedSymbol
  else none

/-- First failed axiom in the spec order A1 (NegativeContradiction),
A2 (PositionSizeExceeded), A3 (LeverageExceeded), A4 (RiskBudget),
A5 (ExcessiveEntropy), A6 (InvalidPrice), A7 (EnergyDivergence),
A8 (UnsupportedSymbol), as claim C5 states it.  A2 compares the quantity
against the supported symbol's limit and is vacuous for unsupported
symbols, which axiom A8 reports (last). -/
def specOrderedViolation (signal : TradeSignal) (portfolio : Portfolio) :
    Option InvariantViolation :=
  if signal.contradiction_score < 0 then some .NegativeContradiction
  else
    match L0InvariantContract.max_position_size signal.symbol with
    | some m =>
      if signal.quantity > m then some (.PositionSizeExceeded signal.quantity m)
      else specFromA3 signal portfolio
    | none => specFromA3 signal portfolio

/-- First failed check in the order the code actually uses (the amended
claim C5): A1, then symbol support (A8) and position size (A2) inside
the same step, then A3, A4a, A4b, A5, A6, and finally the stored-energy
axiom A7 checked by the engine verifier after the L0 contract. -/
def codeOrderedViolation (signal : TradeSignal) (portfolio : Portfolio) :
    Option InvariantViolation :=
  let position_value := signal.quantity * signal.limit_price.getD 0
  let risk := position_value / portfolio.equity
  if signal.contradiction_score < 0 then some .NegativeContradiction
  else
    match L0InvariantContract.max_position_size signal.symbol with
    | none => some .UnsupportedSymbol
    | some m =>
      if signal.quantity > m then some (.PositionSizeExceeded signal.quantity m)
      else if portfolio.leverage > MAX_LEVERAGE then
        some (.LeverageExceeded portfolio.leverage MAX_LEVERAGE)
      else if risk < MIN_RISK_BUDGET then
        some (.RiskBudgetTooSmall risk MIN_RISK_BUDGET)
      else if risk > MAX_RISK_BUDGET then
        some (.RiskBudgetExceeded risk MAX_RISK_BUDGET)
      else if signal.entropy_count > DELTA_U_MAX_SQ then some .ExcessiveEntropy
      else if signal.limit_price.any (fun lp => lp ≤ 0) then some .InvalidPrice
      else if portfolio.energy > DELTA_U_MAX_SQ then
        some (.EnergyDivergence portfolio.energy DELTA_U_MAX_SQ)
      else none

/-! Concrete inputs used by the claim theorems and witnesses. -/

/-- Flat portfolio with the given equity and all derived fields at their
`PortfolioManager::new` values. -/
def flatPortfolio (equity : ℚ) : Portfolio :=
  { equity, positions := [], total_exposure := 0, net_exposure := 0,
    leverage := 0, energy := 0 }

/-- Breaker that has recorded a session-start snapshot at equity 100
(scenario S6 of the spec). -/
def breakerWithSnapshot : CircuitBreaker :=
  { state := .Normal, daily_pnl_history := [(0, 100)],
    max_daily_drawdown := MAX_DAILY_DRAWDOWN }

/-- Portfolio at equity 96.9: daily drawdown −0.031 against the recorded
snapshot, beyond the 0.03 limit. -/
def drawdownPortfolio : Portfolio := flatPortfolio (969/10)

/-- Portfolio back at the session-start equity: zero drawdown, zero
leverage, zero energy — no trip or warning condition holds. -/
def recoveredPortfolio : Portfolio := flatPortfolio 100

/-- Manager after one fill (BTC/USD, Buy, 1, 100) from a fresh $10,000
account. -/
def mgrAfterBuy100 : PortfolioManager :=
  (PortfolioManager.new 10000).update_position "BTC/USD" .Buy 1 100

/-- Manager after a first mark-to-market at price 110. -/
def mgrMarked1 : PortfolioManager := mgrAfterBuy100.update_prices [("BTC/USD", 110)]

/-- Manager after a second, identical mark-to-market at price 110:
positions and prices unchanged since `mgrMarked1`. -/
def mgrMarked2 : PortfolioManager := mgrMarked1.update_prices [("BTC/USD", 110)]

/-- Manager after fills (BTC/USD, Buy, 1, 100) then (BTC/USD, Buy, 1, 120)
(scenario S5 of the spec). -/
def mgrS5TwoBuys : PortfolioManager :=
  mgrAfterBuy100.update_position "BTC/USD" .Buy 1 120

/-- Manager after the closing fill (BTC/USD, Sell, 2, 115) of scenario S5. -/
def mgrS5Closed : PortfolioManager :=
  mgrS5TwoBuys.update_position "BTC/USD" .Sell 2 115

/-- Well-formed BTC/USD signal: within all order-size and price bounds. -/
def goodSignal : TradeSignal :=
  { symbol := "BTC/USD", side := .Buy, quantity := 1/2,
    limit_price := some 50000, timestamp := 0,
    contradiction_score := 1/10, entropy_count := 0 }

/-- Verified order wrapping `goodSignal`, as the verifier constructs it. -/
def goodOrder : VerifiedOrder :=
  { signal := goodSignal, proof_signature := "C=0:",
    proof := { satisfiable := true,
               axioms_satisfied :=
                 ["PositionSizeLimit", "LeverageLimit", "RiskBudget",
                  "EnergyConstraint"] },
    verified_at := 1000000 }

/-- Tripped breaker, for the claim C3 counterexample. -/
def trippedBreaker : CircuitBreaker :=
  { state := .Tripped, daily_pnl_history := [],
    max_daily_drawdown := MAX_DAILY_DRAWDOWN }

/-- Copy of `goodOrder` with a different signal quantity (an order-data
modification that claim C4 says must break verification). -/
def orderSignalTampered : VerifiedOrder :=
  { goodOrder with signal := { goodSignal with quantity := 1/4 } }

/-- Copy of `goodOrder` with `proof.satisfiable` flipped. -/
def orderProofTampered : VerifiedOrder :=
  { goodOrder with proof := { satisfiable := false,
                              axioms_satisfied := [] } }

/-- Copy of `goodOrder` with `verified_at` moved by one millisecond
within the same epoch second. -/
def orderSubSecondTampered : VerifiedOrder :=
  { goodOrder with verified_at := 1000001 }

/-- Signal on an unsupported symbol that is otherwise unexceptional. -/
def unsupportedSignal : TradeSignal :=
  { symbol := "XRP/USD", side := .Buy, quantity := 1,
    limit_price := some 100, timestamp := 0,
    contradiction_score := 0, entropy_count := 0 }

/-- Portfolio with leverage 4 (axiom A3 violated) and nonzero equity. -/
def leveragedPortfolio : Portfolio :=
  { equity := 1000, positions := [], total_exposure := 4000,
    net_exposure := 4000, leverage := 4, energy := 0 }

/-- ETH/USD signal with quantity 50: within the ETH position limit (100)
but above the BTC limit (10) that the SMT gate compares every symbol
against. -/
def ethSignal : TradeSignal :=
  { symbol := "ETH/USD", side := .Buy, quantity := 50,
    limit_price := some 100, timestamp := 0,
    contradiction_score := 0, entropy_count := 0 }

/-- Healthy portfolio: leverage 1, equity $1,000,000, zero stored energy. -/
def healthyPortfolio : Portfolio :=
  { equity := 1000000, positions := [], total_exposure := 1000000,
    net_exposure := 1000000, leverage := 1, energy := 0 }

/-- BTC/USD signal within every L0 bound against `healthyPortfolio`-like
books: used to discharge hypotheses in witnesses. -/
def btcSignal : TradeSignal :=
  { symbol := "BTC/USD", side := .Buy, quantity := 1,
    limit_price := some 100, timestamp := 0,
    contradiction_score := 0, entropy_count := 0 }

/-- Order book with equal bid and ask volume: depth imbalance exactly 0,
positive spread, nonzero liquidity. -/
def balancedBook : OrderBook :=
  { bids := [{ price := 100, quantity := 3 }],
    asks := [{ price := 101, quantity := 3 }] }

/-- Signal the proposer emits on `balancedBook` (side Sell, seed
quantity 0.1, limit at mid 100.5, contradiction 1, entropy 200/201). -/
def balancedBookSignal : TradeSignal :=
  { symbol := "BTC/USD", side := .Sell, quantity := 1/10,
    limit_price := some (201/2), timestamp := 0,
    contradiction_score := 1, entropy_count := 200/201 }

/-! Small decidable facts used to reduce literal comparisons in the
evaluation proofs below. -/

theorem buy_ne_sell : Side.Buy ≠ Side.Sell := by decide

theorem sell_ne_buy : Side.Sell ≠ Side.Buy := by decide

theorem xrp_ne_btc : ("XRP/USD" : String) ≠ "BTC/USD" := by decide

theorem xrp_ne_eth : ("XRP/USD" : String) ≠ "ETH/USD" := by decide

theorem xrp_ne_sol : ("XRP/USD" : String) ≠ "SOL/USD" := by decide

theorem eth_ne_btc : ("ETH/USD" : String) ≠ "BTC/USD" := by decide

/-! Claim theorems. -/

/-- Claim C1 (code_bug evaluation): the breaker is not latching.  From a
`Tripped` state reached through `check` on a 3.1% drawdown, a further
`check` on a recovered portfolio (zero drawdown, zero leverage, zero
energy) returns `Normal` — `check` overwrites the latched state — where
the claim requires every such call to return `Tripped` until `reset`. -/
theorem circuit_breaker_check_untrips_without_reset :
    (breakerWithSnapshot.check drawdownPortfolio).1 = .Tripped
      ∧ ((breakerWithSnapshot.check drawdownPortfolio).2).state = .Tripped
      ∧ (((breakerWithSnapshot.check drawdownPortfolio).2).check
          recoveredPortfolio).1 = .Normal
      ∧ ((((breakerWithSnapshot.check drawdownPortfolio).2).check
          recoveredPortfolio).2).state = .Normal := by
  norm_num [CircuitBreaker.check, CircuitBreaker.calculate_daily_drawdown,
    breakerWithSnapshot, drawdownPortfolio, recoveredPortfolio, flatPortfolio,
    calculate_hamiltonian_energy, calculate_correlation_penalty,
    MAX_DAILY_DRAWDOWN, MAX_LEVERAGE, DELTA_U_MAX_SQ, lt_abs]

/-- Claim C2 (code_bug evaluation): `recalculate_metrics` adds the whole
current unrealized PnL to equity on every run, not the delta.  After one
fill and a mark-to-market at 110 the equity is 10010; a second
mark-to-market with identical positions and prices moves it to 10020,
where the claim requires it to stay unchanged. -/
theorem equity_double_counts_unrealized_pnl :
    mgrMarked1.portfolio.equity = 10010
      ∧ mgrMarked2.portfolio.equity = 10020
      ∧ mgrMarked2.portfolio.positions = mgrMarked1.portfolio.positions := by
  norm_num [mgrMarked2, mgrMarked1, mgrAfterBuy100, PortfolioManager.new,
    PortfolioManager.update_position, PortfolioManager.update_prices,
    PortfolioManager.recalculate_metrics, PortfolioManager.upsert,
    PortfolioManager.applyFill, PortfolioManager.newPosition,
    PortfolioManager.applyPrices, PortfolioManager.markPosition]

/-- Claim C3 (counterexample): the safety gate does not reject orders
while the circuit breaker is `Tripped`.  `check_order` takes no breaker
input; on a well-formed order it returns `Ok` regardless of any
`Tripped` breaker present in the system. -/
theorem safety_gate_ignores_tripped_breaker :
    ¬ (∀ (order : VerifiedOrder) (breaker : CircuitBreaker),
        breaker.state = .Tripped →
          (SafetyChecker.check_order order).isSome = true) := by
  intro h
  have hcontra := h goodOrder trippedBreaker rfl
  have hnone : SafetyChecker.check_order goodOrder = none := by
    norm_num [SafetyChecker.check_order, SafetyChecker.check_order_size,
      SafetyChecker.check_price, SafetyChecker.max_order_size, goodOrder,
      goodSignal, MAX_ORDER_SIZE_BTC]
  rw [hnone] at hcontra
  simp at hcontra

/-- Claim C4 (counterexample): modifications of the order's `signal`,
`proof`, or sub-second `verified_at` do not break verification.
`CZeroSignature::verify` rebuilds the message from the signature's
stored `order_hash` (it never re-hashes the order) and from
`verified_at.timestamp()` (whole seconds), so a signed order verifies
even after its signal is replaced, its proof flipped, or its timestamp
moved within the same second. -/
theorem verify_accepts_tampered_order :
    ((CZeroSignature.sign goodOrder 7).verify orderSignalTampered = true)
      ∧ ((CZeroSignature.sign goodOrder 7).verify orderProofTampered = true)
      ∧ ((CZeroSignature.sign goodOrder 7).verify orderSubSecondTampered = true)
      ∧ orderSignalTampered.signal ≠ goodOrder.signal
      ∧ orderProofTampered.proof ≠ goodOrder.proof
      ∧ orderSubSecondTampered.verified_at ≠ goodOrder.verified_at := by
  refine ⟨?_, ?_, ?_, ?_, ?_, ?_⟩ <;>
    norm_num [CZeroSignature.sign, CZeroSignature.verify, ed25519_verify,
      orderHash, tsSeconds, goodOrder, goodSignal, orderSignalTampered,
      orderProofTampered, orderSubSecondTampered, Int.fdiv,
      SigMessage.mk.injEq, VerifiedOrder.mk.injEq, TradeSignal.mk.injEq,
      Proof.mk.injEq]

/-- Claim C5 (counterexample): on an unsupported-symbol signal against an
over-leveraged portfolio, the first failed axiom in the claim's order
A1..A8 is A3 (`LeverageExceeded`, since A8 comes last), but the L0
contract — and the verifier pipeline running it — reports
`UnsupportedSymbol`, which its position-size step raises second. -/
theorem reported_violation_not_first_in_spec_order :
    L0InvariantContract.verify_signal unsupportedSignal leveragedPortfolio
        = .err .UnsupportedSymbol
      ∧ Verifier.preSMT unsupportedSignal leveragedPortfolio
        = .err .UnsupportedSymbol
      ∧ specOrderedViolation unsupportedSignal leveragedPortfolio
        = some (.LeverageExceeded 4 3)
      ∧ InvariantViolation.UnsupportedSymbol
        ≠ InvariantViolation.LeverageExceeded 4 3 := by
  norm_num [L0InvariantContract.verify_signal,
    L0InvariantContract.check_position_size,
    L0InvariantContract.max_position_size, L0InvariantContract.check_leverage,
    L0InvariantContract.check_risk_budget,
    L0InvariantContract.verify_hamiltonian_energy, Verifier.preSMT,
    specOrderedViolation, specFromA3, unsupportedSignal, leveragedPortfolio,
    MAX_LEVERAGE, MIN_RISK_BUDGET, MAX_RISK_BUDGET, DELTA_U_MAX_SQ,
    xrp_ne_btc, xrp_ne_eth, xrp_ne_sol]
  decide

/-- Claim C6 (code_bug evaluation): the SMT gate's UNSAT branch reports
`LeverageExceeded` unconditionally.  On an ETH signal of quantity 50 —
within the ETH position limit, against a healthy portfolio of
leverage 1 — the solver's quantity constraint (which compares against
the BTC limit 10) is the unsatisfied one, yet the verifier returns
`LeverageExceeded { current: 1, max: 3 }` even though 1 ≤ 3. -/
theorem unsat_reports_leverage_even_for_quantity_constraint :
    Verifier.verify_signal ethSignal healthyPortfolio 0
        = .err (.LeverageExceeded 1 3)
      ∧ truncScale ethSignal.quantity > truncScale MAX_POSITION_SIZE_BTC
      ∧ truncScale healthyPortfolio.leverage ≤ truncScale MAX_LEVERAGE
      ∧ healthyPortfolio.leverage ≤ MAX_LEVERAGE
      ∧ L0InvariantContract.verify_signal ethSignal healthyPortfolio
        = .ok := by
  norm_num [Verifier.verify_signal, Verifier.preSMT, Verifier.generate_proof,
    smtSat, truncScale, L0InvariantContract.verify_signal,
    L0InvariantContract.check_position_size,
    L0InvariantContract.max_position_size, L0InvariantContract.check_leverage,
    L0InvariantContract.check_risk_budget,
    L0InvariantContract.verify_hamiltonian_energy, ethSignal, healthyPortfolio,
    MAX_POSITION_SIZE_BTC, MAX_POSITION_SIZE_ETH, MAX_LEVERAGE,
    MIN_RISK_BUDGET, MAX_RISK_BUDGET, DELTA_U_MAX_SQ, Rat.num_ofNat,
    Rat.den_ofNat, Int.tdiv, eth_ne_btc]

/-- Claim C7 (counterexample): after a mutation the stored `energy`
field does not equal `(leverage² + correlation_penalty)/2` over the
post-mutation positions: one fill gives leverage 1/100 and a computed
Hamiltonian energy of 1001/20000, while the stored field stays 0. -/
theorem energy_field_stale_after_mutation :
    mgrAfterBuy100.portfolio.energy = 0
      ∧ mgrAfterBuy100.portfolio.leverage = 1/100
      ∧ calculate_hamiltonian_energy mgrAfterBuy100.portfolio = 1001/20000
      ∧ mgrAfterBuy100.portfolio.energy
        ≠ calculate_hamiltonian_energy mgrAfterBuy100.portfolio := by
  norm_num [mgrAfterBuy100, PortfolioManager.new,
    PortfolioManager.update_position, PortfolioManager.recalculate_metrics,
    PortfolioManager.upsert, PortfolioManager.applyFill,
    PortfolioManager.newPosition, calculate_hamiltonian_energy,
    calculate_correlation_penalty, buy_ne_sell, sell_ne_buy]

/-- Claim C8 (counterexample): after fills (Buy,1,100), (Buy,1,120),
(Sell,2,115) the position for BTC/USD is not removed — `get_position`
still returns it with quantity 0 — and its `realized_pnl` is 0, not the
claimed +10 (no code path ever writes `realized_pnl`). -/
theorem close_does_not_remove_position_or_realize_pnl :
    (mgrS5Closed.get_position "BTC/USD").map
        (fun p => (p.quantity, p.realized_pnl)) = some (0, 0)
      ∧ mgrS5Closed.get_position "BTC/USD" ≠ none
      ∧ (mgrS5Closed.get_position "BTC/USD").map (fun p => p.realized_pnl)
        ≠ some 10 := by
  norm_num [mgrS5Closed, mgrS5TwoBuys, mgrAfterBuy100, PortfolioManager.new,
    PortfolioManager.update_position, PortfolioManager.recalculate_metrics,
    PortfolioManager.upsert, PortfolioManager.applyFill,
    PortfolioManager.newPosition, PortfolioManager.get_position,
    buy_ne_sell, sell_ne_buy]
  exact Option.some_ne_none _

/-- Claim C8 (amended): the two buys VWAP to quantity 2 at entry 110 (the
claim's first half holds); the closing sell then zeroes the quantity and
marks the current price, the zero-quantity position is dropped from
`portfolio.positions` but kept in the position map, and `realized_pnl`
stays 0 because realized PnL is never tracked. -/
theorem s5_scenario_actual_behavior :
    (mgrS5TwoBuys.get_position "BTC/USD").map
        (fun p => (p.quantity, p.entry_price)) = some (2, 110)
      ∧ (mgrS5Closed.get_position "BTC/USD").map
        (fun p => (p.quantity, p.current_price, p.realized_pnl))
        = some (0, 115, 0)
      ∧ mgrS5Closed.portfolio.positions = [] := by
  norm_num [mgrS5Closed, mgrS5TwoBuys, mgrAfterBuy100, PortfolioManager.new,
    PortfolioManager.update_position, PortfolioManager.recalculate_metrics,
    PortfolioManager.upsert, PortfolioManager.applyFill,
    PortfolioManager.newPosition, PortfolioManager.get_position,
    buy_ne_sell, sell_ne_buy]

/-- Claim C3 (amended): the safety gate's pre-flight check passes exactly
when the symbol is supported, the quantity lies in (0, max_order_size],
and any limit price is positive; the circuit breaker is not an input of
the check, so a `Tripped` breaker cannot make it fail. -/
theorem check_order_ok_iff (order : VerifiedOrder) :
    SafetyChecker.check_order order = none ↔
      ((∃ m, SafetyChecker.max_order_size order.signal.symbol = some m
          ∧ 0 < order.signal.quantity ∧ order.signal.quantity ≤ m)
        ∧ ∀ lp ∈ order.signal.limit_price, 0 < lp) := by
  unfold SafetyChecker.check_order SafetyChecker.check_order_size
    SafetyChecker.check_price
  rcases hm : SafetyChecker.max_order_size order.signal.symbol with _ | m
  · simp [hm]
  · rcases hlp : order.signal.limit_price with _ | lp <;> simp only [hm, hlp]
    · constructor
      · intro hok
        split_ifs at hok with h1 h2
        refine ⟨⟨m, rfl, by linarith, by linarith⟩, ?_⟩
        simp
      · rintro ⟨⟨m1, hm1, h0, hle⟩, -⟩
        rw [Option.some_inj] at hm1
        subst hm1
        split_ifs with h1 h2
        · exact absurd hle (by simpa using h1)
        · exact absurd h0 (by simpa using h2)
        · rfl
    · constructor
      · intro hok
        split_ifs at hok with h1 h2 h3
        refine ⟨⟨m, rfl, by linarith, by linarith⟩, ?_⟩
        intro x hx
        rw [Option.mem_def, Option.some_inj] at hx
        subst hx
        linarith
      · rintro ⟨⟨m1, hm1, h0, hle⟩, hpr⟩
        rw [Option.some_inj] at hm1
        subst hm1
        have hlp0 : 0 < lp := hpr lp (by simp)
        split_ifs with h1 h2 h3
        · exact absurd hle (by simpa using h1)
        · exact absurd h0 (by simpa using h2)
        · exact absurd hlp0 (by simpa using h3)
        · rfl

/-- Claim C4 (amended): verification of a signed attestation succeeds
exactly when the presented order agrees with the signed one on
`proof_signature` and on the whole-second value of `verified_at`; the
signal, the proof object, and sub-second timestamp bits do not enter the
reconstructed message (`verify` uses the stored `order_hash`), so
modifying them never breaks verification. -/
theorem verify_succeeds_iff_signature_inputs_match
    (o oMod : VerifiedOrder) (k : Nat) :
    (CZeroSignature.sign o k).verify oMod = true ↔
      (o.proof_signature = oMod.proof_signature
        ∧ tsSeconds o.verified_at = tsSeconds oMod.verified_at) := by
  simp [CZeroSignature.sign, CZeroSignature.verify, ed25519_verify, orderHash,
    SigMessage.mk.injEq]

/-- Claim C5 (amended): before the SMT stage, the verifier pipeline
(L0 contract, then stored-energy check, then the repeated entropy check)
reports exactly the first failed check in the code's order A1, A8, A2,
A3, A4a, A4b, A5, A6, A7 — symbol support surfaces second, inside the
position-size step, and the energy axiom comes last — provided the
equity is nonzero (claim C10 covers the zero-equity panic). -/
theorem pre_smt_pipeline_reports_first_in_code_order
    (signal : TradeSignal) (portfolio : Portfolio)
    (h : portfolio.equity ≠ 0) :
    Verifier.preSMT signal portfolio =
      match codeOrderedViolation signal portfolio with
      | some v => L0Outcome.err v
      | none => L0Outcome.ok := by
  by_cases hc : signal.contradiction_score < 0
  · simp [Verifier.preSMT, L0InvariantContract.verify_signal,
      codeOrderedViolation, hc]
  rcases hm : L0InvariantContract.max_position_size signal.symbol with _ | m
  · simp [Verifier.preSMT, L0InvariantContract.verify_signal,
      L0InvariantContract.check_position_size, codeOrderedViolation, hc, hm]
  by_cases hq : signal.quantity > m
  · simp [Verifier.preSMT, L0InvariantContract.verify_signal,
      L0InvariantContract.check_position_size, codeOrderedViolation, hc, hm, hq]
  by_cases hl : portfolio.leverage > MAX_LEVERAGE
  · simp [Verifier.preSMT, L0InvariantContract.verify_signal,
      L0InvariantContract.check_position_size,
      L0InvariantContract.check_leverage, codeOrderedViolation, hc, hm, hq, hl]
  rcases hlp : signal.limit_price with _ | lp
  · norm_num [Verifier.preSMT, L0InvariantContract.verify_signal,
      L0InvariantContract.check_position_size,
      L0InvariantContract.check_leverage,
      L0InvariantContract.check_risk_budget, codeOrderedViolation,
      hc, hm, hq, hl, hlp, h, MIN_RISK_BUDGET]
  by_cases hr1 : signal.quantity * lp / portfolio.equity < MIN_RISK_BUDGET
  · simp [Verifier.preSMT, L0InvariantContract.verify_signal,
      L0InvariantContract.check_position_size,
      L0InvariantContract.check_leverage,
      L0InvariantContract.check_risk_budget, codeOrderedViolation,
      hc, hm, hq, hl, hlp, hr1, h]
  by_cases hr2 : signal.quantity * lp / portfolio.equity > MAX_RISK_BUDGET
  · simp [Verifier.preSMT, L0InvariantContract.verify_signal,
      L0InvariantContract.check_position_size,
      L0InvariantContract.check_leverage,
      L0InvariantContract.check_risk_budget, codeOrderedViolation,
      hc, hm, hq, hl, hlp, hr1, hr2, h]
  by_cases he : signal.entropy_count > DELTA_U_MAX_SQ
  · simp [Verifier.preSMT, L0InvariantContract.verify_signal,
      L0InvariantContract.check_position_size,
      L0InvariantContract.check_leverage,
      L0InvariantContract.check_risk_budget, codeOrderedViolation,
      hc, hm, hq, hl, hlp, hr1, hr2, he, h]
  by_cases hp0 : lp ≤ 0
  · simp [Verifier.preSMT, L0InvariantContract.verify_signal,
      L0InvariantContract.check_position_size,
      L0InvariantContract.check_leverage,
      L0InvariantContract.check_risk_budget, codeOrderedViolation,
      hc, hm, hq, hl, hlp, hr1, hr2, he, hp0, h]
  simp [Verifier.preSMT, L0InvariantContract.verify_signal,
    L0InvariantContract.check_position_size,
    L0InvariantContract.check_leverage,
    L0InvariantContract.check_risk_budget,
    L0InvariantContract.verify_hamiltonian_energy, codeOrderedViolation,
    hc, hm, hq, hl, hlp, hr1, hr2, he, hp0, h]

/-- Claim C5 (amended, witness): instantiation at a concrete in-bounds
signal and a nonzero-equity portfolio. -/
theorem pre_smt_pipeline_witness :
    healthyPortfolio.equity ≠ 0
      ∧ Verifier.preSMT btcSignal healthyPortfolio =
        match codeOrderedViolation btcSignal healthyPortfolio with
        | some v => L0Outcome.err v
        | none => L0Outcome.ok :=
  ⟨by norm_num [healthyPortfolio],
    pre_smt_pipeline_reports_first_in_code_order btcSignal healthyPortfolio
      (by norm_num [healthyPortfolio])⟩

/-- Claim C7 (amended): portfolio mutations never write the stored
`energy` field (it keeps whatever value it had), and the Hamiltonian
energy `(leverage² + correlation_penalty)/2` is instead computed on
demand by `calculate_hamiltonian_energy` from the current portfolio. -/
theorem energy_is_on_demand_not_stored :
    (∀ (m : PortfolioManager) (symbol : String) (side : Side)
        (quantity price : ℚ),
        (m.update_position symbol side quantity price).portfolio.energy
          = m.portfolio.energy)
      ∧ (∀ (m : PortfolioManager) (prices : List (String × ℚ)),
        (m.update_prices prices).portfolio.energy = m.portfolio.energy)
      ∧ ∀ portfolio : Portfolio,
        calculate_hamiltonian_energy portfolio =
          (portfolio.leverage * portfolio.leverage
            + calculate_correlation_penalty portfolio) / 2 :=
  ⟨fun _ _ _ _ _ => rfl, fun _ _ => rfl, fun _ => rfl⟩

/-- Claim C9 (counterexample): a book with equal bid and ask depth has
imbalance exactly 0, and the canonical proposer emits a Sell signal on
it, where the claim requires Buy for imbalance ≥ 0. -/
theorem zero_imbalance_book_proposes_sell :
    calculate_depth_imbalance balancedBook = 0
      ∧ (propose_trade "BTC/USD" balancedBook 0).map (fun s => s.side)
        = some .Sell := by
  norm_num [propose_trade, balancedBook, calculate_depth_imbalance,
    calculate_mid_price, calculate_spread, calculate_spread_pct,
    calculate_contradiction_score, calculate_cex_liquidity,
    calculate_entropy, Option.bind,
    show |(603/2 : ℚ)| = 603/2 from abs_of_pos (by norm_num)]

/-- Claim C9 (amended): whenever the canonical proposer emits a signal,
its side is Buy exactly when the depth imbalance is strictly positive;
a zero-imbalance book therefore yields a Sell signal. -/
theorem proposed_side_buy_iff_positive_imbalance
    (symbol : String) (book : OrderBook) (now_ms : Int) (sig : TradeSignal)
    (h : propose_trade symbol book now_ms = some sig) :
    sig.side = Side.Buy ↔ 0 < calculate_depth_imbalance book := by
  unfold propose_trade at h
  rcases hmid : calculate_mid_price book with _ | mid <;> rw [hmid] at h
  · simp at h
  rcases hs : calculate_spread book with _ | s <;> rw [hs] at h
  · simp at h
  rcases hsp : calculate_spread_pct book with _ | sp <;> rw [hsp] at h
  · simp at h
  simp at h
  obtain ⟨-, rfl⟩ := h
  by_cases himb : 0 < calculate_depth_imbalance book <;>
    simp [himb, sell_ne_buy]

/-- Claim C9 (amended, witness): instantiation at the zero-imbalance
book, on which the proposer emits the Sell signal `balancedBookSignal`. -/
theorem proposed_side_witness :
    propose_trade "BTC/USD" balancedBook 0 = some balancedBookSignal
      ∧ (balancedBookSignal.side = Side.Buy
        ↔ 0 < calculate_depth_imbalance balancedBook) :=
  have hp : propose_trade "BTC/USD" balancedBook 0 = some balancedBookSignal := by
    norm_num [propose_trade, balancedBook, balancedBookSignal,
      calculate_depth_imbalance, calculate_mid_price, calculate_spread,
      calculate_spread_pct, calculate_contradiction_score,
      calculate_cex_liquidity, calculate_entropy, Option.bind,
      show |(603/2 : ℚ)| = 603/2 from abs_of_pos (by norm_num)]
  ⟨hp, proposed_side_buy_iff_positive_imbalance "BTC/USD" balancedBook 0
    balancedBookSignal hp⟩

/-- Claim C10: the L0 contract is total only when equity is nonzero.  For
every zero-equity portfolio and every signal passing the contradiction,
position-size, and leverage checks, `verify_signal` reaches the
risk-budget division `position_value / portfolio.equity`, which has no
zero guard and panics (no typed `InvariantViolation` is returned). -/
theorem zero_equity_l0_panics
    (signal : TradeSignal) (portfolio : Portfolio)
    (heq : portfolio.equity = 0)
    (hc : ¬ signal.contradiction_score < 0)
    (hq : L0InvariantContract.check_position_size signal.symbol signal.quantity
      = none)
    (hl : ¬ portfolio.leverage > MAX_LEVERAGE) :
    L0InvariantContract.verify_signal signal portfolio = .panic := by
  simp [L0InvariantContract.verify_signal, L0InvariantContract.check_leverage,
    L0InvariantContract.check_risk_budget, heq, hc, hq, hl]

/-- Claim C10 (witness): instantiation at a well-formed BTC/USD signal
and a flat zero-equity portfolio. -/
theorem zero_equity_l0_panics_witness :
    (flatPortfolio 0).equity = 0
      ∧ ¬ btcSignal.contradiction_score < 0
      ∧ L0InvariantContract.check_position_size btcSignal.symbol
          btcSignal.quantity = none
      ∧ ¬ (flatPortfolio 0).leverage > MAX_LEVERAGE
      ∧ L0InvariantContract.verify_signal btcSignal (flatPortfolio 0)
        = .panic :=
  ⟨rfl, by norm_num [btcSignal],
    by norm_num [L0InvariantContract.check_position_size,
      L0InvariantContract.max_position_size, btcSignal, MAX_POSITION_SIZE_BTC],
    by norm_num [flatPortfolio, MAX_LEVERAGE],
    zero_equity_l0_panics btcSignal (flatPortfolio 0) rfl
      (by norm_num [btcSignal])
      (by norm_num [L0InvariantContract.check_position_size,
        L0InvariantContract.max_position_size, btcSignal,
        MAX_POSITION_SIZE_BTC])
      (by norm_num [flatPortfolio, MAX_LEVERAGE])⟩

end AxiomHive
